import Mathlib

/-!
# Verification of the easee_status session, fetch-pipeline and cache core

This file is a shallow embedding of the session/token lifecycle manager
(`src/v1/easee.rs`, mirrored by `src/v1/logic.rs`), the fetch pipeline
(`get_charger_state` / `get_charger_list` / `external_request_charger_state`)
and the TTL result cache of the `field_index` route (`src/v1/routes.rs`).

Modelling conventions:

* `DateTime<Local>` timestamps are embedded as `Int` seconds.  chrono's
  `checked_add_signed` returns `None` outside the representable datetime range;
  the range endpoints are embedded as the model constants `minTimestamp` /
  `maxTimestamp` (their exact values are irrelevant to every theorem below,
  only that the range is bounded).  `chrono::Duration::seconds` panics when the
  argument exceeds `i64::MAX / 1000` milliseconds-worth of seconds; that bound
  is the constant `maxDurationSeconds`.
* Every network interaction is an input to the function being modelled: the
  environment records, stage by stage, what the code observes from `reqwest`
  (transport error on `send`, the response status class, `res.text()` failing,
  `serde_json` failing to parse, and the individual fields the code reads).
  JSON numeric fields (`f64`) are carried as `Rat`; no theorem computes with
  them.
* Stateful operations take the current `SessionState` and return a triple
  `(result, new state, network-call trace)`; the trace is used to state the
  "zero network calls" / "no later id is fetched" / fetch-count claims.
* Rust panics (`unreachable!()` in the two charger functions,
  `Duration::seconds` out of range, `json.as_array().unwrap()` on non-array
  JSON) are a distinguished `OpResult.panic` outcome carrying their source.
-/

/-- The error enum of `src/v1/structs.rs` / `src/v1/logic.rs` (the source
spells it `Unathorized`). `HttpFailed` is the transport/`NetworkFailure`
kind. -/
inductive EaseeError where
  | Unathorized
  | LoginFailed
  | HttpFailed
  | InvalidResponse
  | RateLimit
deriving DecidableEq

/-- `SessionState` of `src/v1/structs.rs` lines 13-28: access token, refresh
token and absolute expiry (`lifetime`), each independently optional. -/
structure SessionState where
  token : Option String
  refresh_token : Option String
  lifetime : Option Int
deriving DecidableEq

/-- `SessionState::new()`: the empty session the process starts with. -/
def SessionState.new : SessionState :=
  { token := none, refresh_token := none, lifetime := none }

/-- Where a Rust panic in the modelled code comes from. -/
inductive PanicSource where
  /-- the `unreachable!()` arms of `get_charger_list` and
  `external_request_charger_state` (no token after `refresh_auth`) -/
  | noTokenUnreachable
  /-- `chrono::Duration::seconds` called outside its representable range -/
  | durationOutOfRange
  /-- `json.as_array().unwrap()` in `get_charger_list` on valid non-array JSON -/
  | jsonNotArray
deriving DecidableEq

/-- Outcome of a modelled operation: `Ok`, a typed `EaseeError`, or a Rust
panic. -/
inductive OpResult (α : Type) where
  | ok (a : α)
  | err (e : EaseeError)
  | panic (src : PanicSource)
deriving DecidableEq

/-- One upstream network call, as recorded in an operation's trace. -/
inductive NetCall where
  | loginPost
  | refreshPost
  | listGet
  | stateGet (id : String)
deriving DecidableEq

/-- The status class the code distinguishes on a `reqwest` response:
`is_success()`, `== TOO_MANY_REQUESTS` (429), or any other non-2xx. -/
inductive HttpStatus where
  | success
  | tooManyRequests
  | otherFailure
deriving DecidableEq

/-- What one HTTP exchange yields to the code: `noResponse` is a transport
error on `send` (mapped to `HttpFailed` everywhere); otherwise a status class
and, for the branches that read it, the body (`none` models `res.text()`
failing, also mapped to `HttpFailed`). -/
inductive Wire (β : Type) where
  | noResponse
  | response (status : HttpStatus) (body : Option β)
deriving DecidableEq

/-- The login/refresh response body as the code observes it: either
`serde_json::from_str` fails, or the three fields are each present with the
expected type or not (`json["accessToken"].as_str()` etc.). -/
inductive AuthBody where
  | malformed
  | fields (accessToken : Option String) (refreshToken : Option String)
      (expiresIn : Option Int)
deriving DecidableEq

/-- The charger-list response body: parse failure, valid JSON that is not an
array (the code calls `json.as_array().unwrap()` on it), or an array whose
elements each do or do not carry a string `id`. -/
inductive ListBody where
  | malformed
  | notArray
  | array (items : List (Option String))
deriving DecidableEq

/-- The per-charger state response body: parse failure or the three numeric
fields (`totalPower`, `sessionEnergy`, `energyPerHour`), each present as a
number or not. -/
inductive StateBody where
  | malformed
  | fields (totalPower : Option Rat) (sessionEnergy : Option Rat)
      (energyPerHour : Option Rat)
deriving DecidableEq

/-- Model constant: lower end of chrono's representable datetime range,
in seconds. -/
def minTimestamp : Int := -8334601228800

/-- Model constant: upper end of chrono's representable datetime range,
in seconds. -/
def maxTimestamp : Int := 8210266876799

/-- Model constant: `chrono::Duration::seconds` panics beyond this magnitude
(`i64::MAX` milliseconds expressed in seconds). -/
def maxDurationSeconds : Int := 9223372036854775

/-- `DateTime::checked_add_signed`: `none` when the sum leaves the
representable range. -/
def checkedAddSigned (t d : Int) : Option Int :=
  if minTimestamp ≤ t + d ∧ t + d ≤ maxTimestamp then some (t + d) else none

/-- Environment of one `login` call: whether the credential provider (env
vars or credentials file) produced credentials, the wire exchange with the
login endpoint, and the value of `Local::now()` at the expiry computation. -/
structure LoginEnv where
  credsOk : Bool
  wire : Wire AuthBody
  now : Int
deriving DecidableEq

/-- The shared tail of `login` and `refresh_token` (easee.rs lines 203-244 and
291-323): on a 2xx response, read the body, parse it, extract the three
fields, then lock the session and write `token`, `refresh_token` and finally
`lifetime`.  The source writes `token` and `refresh_token` BEFORE evaluating
`Local::now().checked_add_signed(Duration::seconds(duration))`, whose `?` can
still fail with `InvalidResponse`; the model reproduces that order. -/
def storeAuthResponse (s : SessionState) (body : Option AuthBody) (now : Int)
    (call : NetCall) : OpResult Unit × SessionState × List NetCall :=
  match body with
  | none => (.err .HttpFailed, s, [call])
  | some .malformed => (.err .InvalidResponse, s, [call])
  | some (.fields accessToken refreshToken expiresIn) =>
    match accessToken, refreshToken, expiresIn with
    | some tok, some rtok, some dur =>
      if dur < -maxDurationSeconds ∨ maxDurationSeconds < dur then
        (.panic .durationOutOfRange,
          { s with token := some tok, refresh_token := some rtok }, [call])
      else
        match checkedAddSigned now dur with
        | none =>
          (.err .InvalidResponse,
            { s with token := some tok, refresh_token := some rtok }, [call])
        | some expiry =>
          (.ok (),
            { s with
                token := some tok
                refresh_token := some rtok
                lifetime := some expiry }, [call])
    | _, _, _ => (.err .InvalidResponse, s, [call])

/-- `login` (easee.rs lines 153-253): credential-provider failure is
`LoginFailed` before any network call; transport failure is `HttpFailed`;
non-2xx is `LoginFailed`; a 2xx response is handled by
`storeAuthResponse`. -/
def login (s : SessionState) (env : LoginEnv) :
    OpResult Unit × SessionState × List NetCall :=
  if env.credsOk then
    match env.wire with
    | .noResponse => (.err .HttpFailed, s, [.loginPost])
    | .response status body =>
      if status = .success then
        storeAuthResponse s body env.now .loginPost
      else
        (.err .LoginFailed, s, [.loginPost])
  else
    (.err .LoginFailed, s, [])

/-- Environment of one `refresh_token` call: the wire exchange with the
refresh endpoint, `Local::now()` at its expiry computation, and the
environment for the fallback `login` call taken when the session holds no
refresh token (or no access token). -/
structure RefreshEnv where
  wire : Wire AuthBody
  now : Int
  loginEnv : LoginEnv
deriving DecidableEq

/-- `refresh_token` (easee.rs lines 256-328): with no refresh token or no
access token it logs in instead; otherwise it POSTs to the refresh endpoint
and stores the response exactly like `login`.  A non-2xx refresh response is
`Err(LoginFailed)` — there is no fallback to `login` on that path. -/
def refresh_token (s : SessionState) (env : RefreshEnv) :
    OpResult Unit × SessionState × List NetCall :=
  if s.refresh_token = none then
    login s env.loginEnv
  else if s.token = none then
    login s env.loginEnv
  else
    match env.wire with
    | .noResponse => (.err .HttpFailed, s, [.refreshPost])
    | .response status body =>
      if status = .success then
        storeAuthResponse s body env.now .refreshPost
      else
        (.err .LoginFailed, s, [.refreshPost])

/-- Environment of one `refresh_auth` call: `Local::now()` at the validity
check (easee.rs line 335) plus the environments of the refresh and login
calls it may delegate to. -/
structure AuthEnv where
  now : Int
  refreshEnv : RefreshEnv
  loginEnv : LoginEnv
deriving DecidableEq

/-- `refresh_auth` (easee.rs lines 331-348), the `ensure_valid` of the spec:
token and expiry both held and `lifetime > now` is a no-op; both held but
expired delegates to `refresh_token`; anything else delegates to `login`. -/
def refresh_auth (s : SessionState) (env : AuthEnv) :
    OpResult Unit × SessionState × List NetCall :=
  match s.token, s.lifetime with
  | some _, some lt =>
    if lt > env.now then (.ok (), s, [])
    else refresh_token s env.refreshEnv
  | some _, none => login s env.loginEnv
  | none, _ => login s env.loginEnv

/-- `ChargerState` (easee.rs version, with the charger id; the logic.rs
variant used by the routes is identical minus the `id` field, which plays no
role in the route logic). The three `f64` telemetry fields are carried as
`Rat`. -/
structure ChargerState where
  id : String
  power : Rat
  session : Rat
  energy_per_hour : Rat
deriving DecidableEq

/-- Environment of one `get_charger_list` call: the auth environment of the
`refresh_auth` it starts with, and the wire exchange with the chargers
endpoint. -/
structure ListEnv where
  auth : AuthEnv
  wire : Wire ListBody
deriving DecidableEq

/-- The id-extraction loop of `get_charger_list`: each array element either
has a string `id` or the whole call is `InvalidResponse`. -/
def extractIds : List (Option String) → Option (List String)
  | [] => some []
  | none :: _ => none
  | some id :: rest =>
    match extractIds rest with
    | none => none
    | some ids => some (id :: ids)

/-- `get_charger_list` (easee.rs lines 41-88; logic.rs lines 101-148 is
line-identical in every branch modelled here): `refresh_auth` first, then —
with the token that must now be present, else the `unreachable!()` arm — a
bearer-authenticated GET.  Non-2xx mapping of the source: 429 ↦
`Unathorized`, any other non-2xx ↦ `HttpFailed`. -/
def get_charger_list (s : SessionState) (env : ListEnv) :
    OpResult (List String) × SessionState × List NetCall :=
  match refresh_auth s env.auth with
  | (.ok _, s1, tr) =>
    match s1.token with
    | none => (.panic .noTokenUnreachable, s1, tr)
    | some _ =>
      match env.wire with
      | .noResponse => (.err .HttpFailed, s1, tr ++ [.listGet])
      | .response status body =>
        if status = .success then
          match body with
          | none => (.err .HttpFailed, s1, tr ++ [.listGet])
          | some .malformed => (.err .InvalidResponse, s1, tr ++ [.listGet])
          | some .notArray => (.panic .jsonNotArray, s1, tr ++ [.listGet])
          | some (.array items) =>
            match extractIds items with
            | some ids => (.ok ids, s1, tr ++ [.listGet])
            | none => (.err .InvalidResponse, s1, tr ++ [.listGet])
        else if status = .tooManyRequests then
          (.err .Unathorized, s1, tr ++ [.listGet])
        else
          (.err .HttpFailed, s1, tr ++ [.listGet])
  | (.err e, s1, tr) => (.err e, s1, tr)
  | (.panic p, s1, tr) => (.panic p, s1, tr)

/-- Environment of one `external_request_charger_state` call. -/
structure StateEnv where
  auth : AuthEnv
  wire : Wire StateBody
deriving DecidableEq

/-- `external_request_charger_state` (easee.rs lines 91-150; logic.rs lines
151-209 identical in every modelled branch): `refresh_auth`, then the
per-charger state GET.  Non-2xx mapping of the source: 429 ↦ `RateLimit`,
any other non-2xx ↦ `Unathorized`. -/
def external_request_charger_state (charger_id : String) (s : SessionState)
    (env : StateEnv) : OpResult ChargerState × SessionState × List NetCall :=
  match refresh_auth s env.auth with
  | (.ok _, s1, tr) =>
    match s1.token with
    | none => (.panic .noTokenUnreachable, s1, tr)
    | some _ =>
      match env.wire with
      | .noResponse => (.err .HttpFailed, s1, tr ++ [.stateGet charger_id])
      | .response status body =>
        if status = .success then
          match body with
          | none => (.err .HttpFailed, s1, tr ++ [.stateGet charger_id])
          | some .malformed => (.err .InvalidResponse, s1, tr ++ [.stateGet charger_id])
          | some (.fields totalPower sessionEnergy energyPerHour) =>
            match totalPower, sessionEnergy, energyPerHour with
            | some p, some se, some eph =>
              (.ok { id := charger_id, power := p, session := se, energy_per_hour := eph },
                s1, tr ++ [.stateGet charger_id])
            | _, _, _ => (.err .InvalidResponse, s1, tr ++ [.stateGet charger_id])
        else if status = .tooManyRequests then
          (.err .RateLimit, s1, tr ++ [.stateGet charger_id])
        else
          (.err .Unathorized, s1, tr ++ [.stateGet charger_id])
  | (.err e, s1, tr) => (.err e, s1, tr)
  | (.panic p, s1, tr) => (.panic p, s1, tr)

/-- Environment of one `get_charger_state` pipeline call: the list-call
environment and, indexed by position in the id list, the environment of each
per-charger call. -/
structure PipelineEnv where
  listEnv : ListEnv
  stateEnvs : Nat → StateEnv

/-- The per-id loop of `get_charger_state` (easee.rs lines 27-36): fetch each
charger's state in listing order, aborting on the first error and returning
it; `i` is the position used to index the per-call environments. -/
def chargerLoop (env : Nat → StateEnv) :
    SessionState → List String → Nat →
      OpResult (List ChargerState) × SessionState × List NetCall
  | s, [], _ => (.ok [], s, [])
  | s, id :: rest, i =>
    match external_request_charger_state id s (env i) with
    | (.ok st, s1, tr) =>
      match chargerLoop env s1 rest (i + 1) with
      | (.ok sts, s2, tr2) => (.ok (st :: sts), s2, tr ++ tr2)
      | (.err e, s2, tr2) => (.err e, s2, tr ++ tr2)
      | (.panic p, s2, tr2) => (.panic p, s2, tr ++ tr2)
    | (.err e, s1, tr) => (.err e, s1, tr)
    | (.panic p, s1, tr) => (.panic p, s1, tr)

/-- `get_charger_state` (easee.rs lines 18-38), the `fetch_all` of the spec:
list the charger ids, then fetch each charger's state in order, fail-fast. -/
def get_charger_state (s : SessionState) (env : PipelineEnv) :
    OpResult (List ChargerState) × SessionState × List NetCall :=
  match get_charger_list s env.listEnv with
  | (.ok ids, s1, tr) =>
    match chargerLoop env.stateEnvs s1 ids 0 with
    | (r, s2, tr2) => (r, s2, tr ++ tr2)
  | (.err e, s1, tr) => (.err e, s1, tr)
  | (.panic p, s1, tr) => (.panic p, s1, tr)

/-- The charger ids of the `stateGet` calls in a trace, in order. -/
def stateGetIds (tr : List NetCall) : List String :=
  tr.filterMap fun c =>
    match c with
    | .stateGet id => some id
    | _ => none

/-- The `Cache` of `src/v1/routes.rs` lines 10-14: the last-fetch timestamp
and the cached charger states, held in two independent mutexes. -/
structure Cache where
  last_update : Option Int
  state : Option (List ChargerState)
deriving DecidableEq

/-- The `Field` route parameter of `src/v1/routes.rs` (named `RouteField` here
because `Field` is taken by Mathlib). -/
inductive RouteField where
  | Power
  | Session
  | Energy
deriving DecidableEq

/-- The field selection of the `field_index` match arms. -/
def fieldValue (f : RouteField) (c : ChargerState) : Rat :=
  match f with
  | .Power => c.power
  | .Session => c.session
  | .Energy => c.energy_per_hour

/-- The bodies `field_index` can answer with: the rendered numeric value
(`format` of the selected field), the two literal error strings, or the empty
body of the error-status responses. -/
inductive RouteBody where
  | num (v : Rat)
  | indexOutOfRange
  | noCachedData
  | empty
deriving DecidableEq

/-- How one `field_index` invocation ends.  `hang` marks the paths
(routes.rs lines 135 and 192) where the handler calls
`cache.last_update.lock().await` a second time while the guard it took at
line 124 is still alive: `tokio::sync::Mutex` is not reentrant, so that await
never resolves and no response is produced.  `panicked` marks a Rust panic
inside the pipeline call. -/
inductive RouteOutcome where
  | respond (status : Nat) (body : RouteBody)
  | hang
  | panicked
deriving DecidableEq

/-- The error-to-HTTP-status mapping repeated in the route match arms. -/
def errorStatus (e : EaseeError) : Nat :=
  match e with
  | .Unathorized => 401
  | .LoginFailed => 500
  | .HttpFailed => 500
  | .InvalidResponse => 500
  | .RateLimit => 429

/-- Environment of one `field_index` invocation: `Local::now()` at the TTL
check and the environment of the pipeline call the handler may make. -/
structure RouteEnv where
  now : Int
  pipeline : PipelineEnv

/-- `field_index` (routes.rs lines 120-218).  Result components: outcome,
cache after the call, session after the call, and the number of
`get_charger_state` pipeline invocations the call made.

With a cached timestamp `t0`, the next refresh time is
`t0.checked_add_signed(Duration::minutes(1))` — `t0 + 60` seconds, `none` on
chrono overflow (500 response).  `now > t0 + 60` takes the fetch path; on
fetch success the handler stores the fresh value in `cache.state` and then
hangs re-locking `cache.last_update` (see `RouteOutcome.hang`), so
`last_update` keeps its old value; on fetch error it responds with the mapped
status and touches neither cache field.  Otherwise it serves from
`cache.state` without fetching.  With no cached timestamp it takes the fetch
path the same way (storing, then hanging, on success). -/
def field_index (c : Cache) (s : SessionState) (f : RouteField) (index : Nat)
    (env : RouteEnv) : RouteOutcome × Cache × SessionState × Nat :=
  match c.last_update with
  | some t0 =>
    match checkedAddSigned t0 60 with
    | none => (.respond 500 .empty, c, s, 0)
    | some next_refresh_time =>
      if env.now > next_refresh_time then
        match get_charger_state s env.pipeline with
        | (.ok chargers, s1, _) => (.hang, { c with state := some chargers }, s1, 1)
        | (.err e, s1, _) => (.respond (errorStatus e) .empty, c, s1, 1)
        | (.panic _, s1, _) => (.panicked, c, s1, 1)
      else
        match c.state with
        | some chargers =>
          match chargers.get? index with
          | some charger => (.respond 200 (.num (fieldValue f charger)), c, s, 0)
          | none => (.respond 400 .indexOutOfRange, c, s, 0)
        | none => (.respond 400 .noCachedData, c, s, 0)
  | none =>
    match get_charger_state s env.pipeline with
    | (.ok chargers, s1, _) => (.hang, { c with state := some chargers }, s1, 1)
    | (.err e, s1, _) => (.respond (errorStatus e) .empty, c, s1, 1)
    | (.panic _, s1, _) => (.panicked, c, s1, 1)

/-- A batch of concurrent `field_index` callers.  The handler takes the
`cache.last_update` lock at its first line and the guard lives until the
handler returns, so concurrent executions are serialized in some order and a
batch of callers is modelled as a sequential run; each element of the
environment list is the environment one caller runs under.  A caller that
hangs never releases the guard, so the callers after it never execute (the
run stops; they receive no outcome).  A caller that panics unwinds, dropping
the guard, so the run continues.  Result: the outcomes of the callers that
ran, the final cache and session, and the total number of pipeline fetches
issued. -/
def runCallers (f : RouteField) (index : Nat) :
    Cache → SessionState → List RouteEnv →
      List RouteOutcome × Cache × SessionState × Nat
  | c, s, [] => ([], c, s, 0)
  | c, s, env :: rest =>
    match field_index c s f index env with
    | (.hang, c1, s1, n) => ([.hang], c1, s1, n)
    | (out, c1, s1, n) =>
      match runCallers f index c1 s1 rest with
      | (outs, c2, s2, m) => (out :: outs, c2, s2, n + m)

/-! ## Concrete fixtures used by the evaluation theorems and witnesses -/

/-- Fixture: a login exchange whose response parses completely but whose
`expiresIn` pushes the expiry past chrono's representable range, so
`checked_add_signed` returns `None`. -/
def overflowLoginEnv : LoginEnv :=
  { credsOk := true
    wire := .response .success
      (some (.fields (some "A") (some "R") (some 10000000000000)))
    now := 1700000000 }

/-- Fixture: a session holding a token valid until time 1000. -/
def validSession : SessionState :=
  { token := some "T", refresh_token := some "R", lifetime := some 1000 }

/-- Fixture: an auth environment at time 0, under which `validSession` is
still valid so `refresh_auth` is a no-op; its login/refresh sub-environments
are never consulted. -/
def idleAuthEnv : AuthEnv :=
  { now := 0
    refreshEnv :=
      { wire := .noResponse, now := 0
        loginEnv := { credsOk := false, wire := .noResponse, now := 0 } }
    loginEnv := { credsOk := false, wire := .noResponse, now := 0 } }

/-- Fixture: a session whose token expired at time 10 and which holds a
refresh token. -/
def expiredSession : SessionState :=
  { token := some "T", refresh_token := some "R", lifetime := some 10 }

/-- Fixture: a login exchange that would succeed (time 20, full response). -/
def goodLoginEnv : LoginEnv :=
  { credsOk := true
    wire := .response .success (some (.fields (some "A2") (some "R2") (some 3600)))
    now := 20 }

/-- Fixture: a refresh exchange answered with a non-2xx (authorization-style)
failure, while a login — had one been attempted — would have succeeded. -/
def failingRefreshEnv : RefreshEnv :=
  { wire := .response .otherFailure none, now := 20, loginEnv := goodLoginEnv }

/-- Fixture: auth environment at time 20 (so `expiredSession` is expired),
whose refresh exchange fails and whose login exchange would succeed. -/
def cexAuthEnv : AuthEnv :=
  { now := 20, refreshEnv := failingRefreshEnv, loginEnv := goodLoginEnv }

/-! ## C1 and C2: the overflow path of login mutates the session -/

/-- C1: claimed invariant `access_token.is_some() == expires_at.is_some()` in
every reachable session state.  The code violates it: from the empty session,
a login whose response parses completely but whose `expiresIn` makes
`checked_add_signed` overflow returns `Err(InvalidResponse)` AFTER having
already written `token` and `refresh_token` (easee.rs lines 229-238), leaving
`token = Some _` with `lifetime = None`. -/
theorem login_overflow_breaks_invariant :
    (login SessionState.new overflowLoginEnv).1 = .err .InvalidResponse ∧
    ((login SessionState.new overflowLoginEnv).2.1).token.isSome = true ∧
    ((login SessionState.new overflowLoginEnv).2.1).lifetime.isSome = false := by
  decide

/-- C2: claimed: whenever `login` returns `Err`, the `SessionState` is
exactly as before.  The code violates it on the same overflow path: the call
returns `Err(InvalidResponse)` yet `token` and `refresh_token` have been
overwritten. -/
theorem login_overflow_mutates_session :
    (login SessionState.new overflowLoginEnv).1 = .err .InvalidResponse ∧
    (login SessionState.new overflowLoginEnv).2.1 ≠ SessionState.new ∧
    (login SessionState.new overflowLoginEnv).2.1 =
      { token := some "A", refresh_token := some "R", lifetime := none } := by
  decide

/-! ## C4: upstream status mapping of the two charger calls -/

/-- C4: claimed: non-2xx on the list call maps 429 ↦ `RateLimited` and other
non-2xx ↦ `Unauthorized`; same for the per-entity call.  Evaluating the code:
the list call maps 429 ↦ `Unathorized` and other non-2xx ↦ `HttpFailed`
(easee.rs lines 75-83, logic.rs lines 135-143); only the per-entity call
matches the claim (429 ↦ `RateLimit`, other non-2xx ↦ `Unathorized`). -/
theorem charger_status_mapping_eval :
    (get_charger_list validSession
        { auth := idleAuthEnv, wire := .response .tooManyRequests none }).1 =
      .err .Unathorized ∧
    (get_charger_list validSession
        { auth := idleAuthEnv, wire := .response .otherFailure none }).1 =
      .err .HttpFailed ∧
    (external_request_charger_state "C" validSession
        { auth := idleAuthEnv, wire := .response .tooManyRequests none }).1 =
      .err .RateLimit ∧
    (external_request_charger_state "C" validSession
        { auth := idleAuthEnv, wire := .response .otherFailure none }).1 =
      .err .Unathorized := by
  decide

/-! ## C3: action selection of refresh_auth (ensure_valid) -/

/-- C3 counterexample: with an expired token and a refresh token held, a
refresh attempt answered by a non-2xx (authorization) failure does NOT fall
back to login: `refresh_auth` returns `Err(LoginFailed)`, the only network
call is the refresh POST, and no login is attempted — even though the login
environment of this run would have succeeded. -/
theorem refresh_auth_no_login_fallback_cex :
    refresh_auth expiredSession cexAuthEnv =
      (.err .LoginFailed, expiredSession, [.refreshPost]) ∧
    NetCall.loginPost ∉ (refresh_auth expiredSession cexAuthEnv).2.2 := by
  decide

/-- Every branch of `storeAuthResponse` records exactly the one HTTP call it
was entered for. -/
theorem storeAuthResponse_trace (s : SessionState) (b : Option AuthBody)
    (now : Int) (call : NetCall) : (storeAuthResponse s b now call).2.2 = [call] := by
  unfold storeAuthResponse
  rcases b with _ | b
  · rfl
  rcases b with _ | ⟨a, r, e⟩
  · rfl
  rcases a with _ | tok <;> rcases r with _ | rtok <;> rcases e with _ | dur <;>
    try rfl
  dsimp only
  split
  · rfl
  · split <;> rfl

/-- With both a refresh token and an access token held, `refresh_token` never
falls back to login: its trace is exactly the refresh POST. -/
theorem refresh_token_live_trace (s : SessionState) (env : RefreshEnv)
    (rt tk : String) (hrt : s.refresh_token = some rt) (htok : s.token = some tk) :
    (refresh_token s env).2.2 = [NetCall.refreshPost] := by
  unfold refresh_token
  rw [hrt, htok]
  simp only [reduceCtorEq, if_false]
  rcases env.wire with _ | ⟨st, b⟩
  · rfl
  · dsimp only
    split
    · exact storeAuthResponse_trace ..
    · rfl

/-- C3 (amended): `refresh_auth` selects its action as the code does: with no
access token or no expiry it performs the login call only; with a valid token
(`now < expires_at`) it is a no-op with zero network calls; with an expired
token and a refresh token held it performs the refresh call only (trace is
exactly the refresh POST, never a login); with an expired token and no
refresh token it performs the login call only; and when the refresh exchange
answers non-2xx the error `LoginFailed` is returned with NO fallback to
login. -/
theorem refresh_auth_selection :
    (∀ (s : SessionState) (env : AuthEnv),
      (s.token = none ∨ s.lifetime = none) →
      refresh_auth s env = login s env.loginEnv) ∧
    (∀ (s : SessionState) (env : AuthEnv) (tk : String) (lt : Int),
      s.token = some tk → s.lifetime = some lt → env.now < lt →
      refresh_auth s env = (.ok (), s, [])) ∧
    (∀ (s : SessionState) (env : AuthEnv) (tk rt : String) (lt : Int),
      s.token = some tk → s.lifetime = some lt → lt ≤ env.now →
      s.refresh_token = some rt →
      refresh_auth s env = refresh_token s env.refreshEnv ∧
      (refresh_token s env.refreshEnv).2.2 = [NetCall.refreshPost]) ∧
    (∀ (s : SessionState) (env : AuthEnv) (tk : String) (lt : Int),
      s.token = some tk → s.lifetime = some lt → lt ≤ env.now →
      s.refresh_token = none →
      refresh_auth s env = login s env.refreshEnv.loginEnv) ∧
    (∀ (s : SessionState) (env : AuthEnv) (tk rt : String) (lt : Int)
        (st : HttpStatus) (b : Option AuthBody),
      s.token = some tk → s.lifetime = some lt → lt ≤ env.now →
      s.refresh_token = some rt →
      env.refreshEnv.wire = .response st b → st ≠ .success →
      refresh_auth s env = (.err .LoginFailed, s, [.refreshPost])) := by
  refine ⟨?_, ?_, ?_, ?_, ?_⟩
  · intro s env h
    unfold refresh_auth
    rcases htok : s.token with _ | tk <;> rcases hlt : s.lifetime with _ | lt <;>
      simp_all
  · intro s env tk lt htok hlt hnow
    unfold refresh_auth
    rw [htok, hlt]
    simp [hnow]
  · intro s env tk rt lt htok hlt hle hrt
    constructor
    · unfold refresh_auth
      rw [htok, hlt]
      simp [not_lt.mpr hle]
    · exact refresh_token_live_trace s env.refreshEnv rt tk hrt htok
  · intro s env tk lt htok hlt hle hrt
    unfold refresh_auth
    rw [htok, hlt]
    simp only [gt_iff_lt, not_lt.mpr hle, if_false]
    unfold refresh_token
    rw [hrt]
    simp
  · intro s env tk rt lt st b htok hlt hle hrt hw hst
    unfold refresh_auth
    rw [htok, hlt]
    simp only [gt_iff_lt, not_lt.mpr hle, if_false]
    unfold refresh_token
    rw [hrt, htok, hw]
    simp [hst]

/-- C3 witness: the five parts of `refresh_auth_selection` at concrete
inputs: the empty session logs in; `validSession` at time 0 is a no-op;
`expiredSession` at time 20 delegates to the refresh call with trace exactly
the refresh POST; the refresh-token-less expired session logs in; and the
failing refresh of `cexAuthEnv` yields `LoginFailed` without login. -/
theorem refresh_auth_selection_witness :
    refresh_auth SessionState.new cexAuthEnv = login SessionState.new cexAuthEnv.loginEnv ∧
    refresh_auth validSession idleAuthEnv = (.ok (), validSession, []) ∧
    (refresh_auth expiredSession cexAuthEnv = refresh_token expiredSession cexAuthEnv.refreshEnv ∧
      (refresh_token expiredSession cexAuthEnv.refreshEnv).2.2 = [NetCall.refreshPost]) ∧
    refresh_auth { token := some "T", refresh_token := none, lifetime := some 10 }
        cexAuthEnv =
      login { token := some "T", refresh_token := none, lifetime := some 10 }
        cexAuthEnv.refreshEnv.loginEnv ∧
    refresh_auth expiredSession cexAuthEnv = (.err .LoginFailed, expiredSession, [.refreshPost]) :=
  ⟨refresh_auth_selection.1 _ _ (Or.inl rfl),
   refresh_auth_selection.2.1 _ _ "T" 1000 rfl rfl (by decide),
   refresh_auth_selection.2.2.1 _ _ "T" "R" 10 rfl rfl (by decide) rfl,
   refresh_auth_selection.2.2.2.1 _ _ "T" 10 rfl rfl (by decide) rfl,
   refresh_auth_selection.2.2.2.2 _ _ "T" "R" 10 .otherFailure none rfl rfl
     (by decide) rfl rfl (by decide)⟩

/-! ## C5: the pipeline is fail-fast -/

/-- `stateGetIds` distributes over trace concatenation. -/
theorem stateGetIds_append (a b : List NetCall) :
    stateGetIds (a ++ b) = stateGetIds a ++ stateGetIds b := by
  unfold stateGetIds
  exact List.filterMap_append ..

/-- `login` performs no per-charger state call. -/
theorem stateGetIds_login (s : SessionState) (env : LoginEnv) :
    stateGetIds (login s env).2.2 = [] := by
  unfold login
  split
  · rcases env.wire with _ | ⟨st, b⟩
    · rfl
    · dsimp only
      split
      · rw [storeAuthResponse_trace]
        rfl
      · rfl
  · rfl

/-- `refresh_token` performs no per-charger state call. -/
theorem stateGetIds_refresh_token (s : SessionState) (env : RefreshEnv) :
    stateGetIds (refresh_token s env).2.2 = [] := by
  unfold refresh_token
  split
  · exact stateGetIds_login ..
  · split
    · exact stateGetIds_login ..
    · rcases env.wire with _ | ⟨st, b⟩
      · rfl
      · dsimp only
        split
        · rw [storeAuthResponse_trace]
          rfl
        · rfl

/-- `refresh_auth` performs no per-charger state call. -/
theorem stateGetIds_refresh_auth (s : SessionState) (env : AuthEnv) :
    stateGetIds (refresh_auth s env).2.2 = [] := by
  unfold refresh_auth
  rcases htok : s.token with _ | tk <;> rcases hlt : s.lifetime with _ | lt <;>
    simp only
  · exact stateGetIds_login ..
  · exact stateGetIds_login ..
  · exact stateGetIds_login ..
  · split
    · rfl
    · exact stateGetIds_refresh_token ..

/-- The per-charger state calls of one `external_request_charger_state` are
none (the call aborted inside `refresh_auth`) or exactly its own charger. -/
theorem stateGetIds_ercs (id : String) (s : SessionState) (env : StateEnv) :
    stateGetIds (external_request_charger_state id s env).2.2 = [] ∨
    stateGetIds (external_request_charger_state id s env).2.2 = [id] := by
  rcases h : refresh_auth s env.auth with ⟨r, s1, tr⟩
  have htr : stateGetIds tr = [] := by
    have h2 := stateGetIds_refresh_auth s env.auth
    rw [h] at h2
    exact h2
  have hcases : (external_request_charger_state id s env).2.2 = tr ∨
      (external_request_charger_state id s env).2.2 = tr ++ [.stateGet id] := by
    unfold external_request_charger_state
    rw [h]
    rcases r with _ | e | p
    · dsimp only
      rcases htk : s1.token with _ | tk
      · left; rfl
      · rcases env.wire with _ | ⟨st, b⟩
        · right; rfl
        · rcases st <;>
            rcases b with _ | (_ | ⟨(_ | tp), (_ | se), (_ | eph)⟩) <;>
            right <;> rfl
    · left; rfl
    · left; rfl
  rcases hcases with hc | hc
  · left
    rw [hc]
    exact htr
  · right
    rw [hc, stateGetIds_append, htr]
    rfl

/-- The session state after the first `k` per-charger calls of the loop,
starting from `s` over `ids` with environment index `i`. -/
def stateAfterCalls (env : Nat → StateEnv) :
    SessionState → List String → Nat → Nat → SessionState
  | s, _, _, 0 => s
  | s, [], _, _ + 1 => s
  | s, id :: rest, i, k + 1 =>
    stateAfterCalls env (external_request_charger_state id s (env i)).2.1
      rest (i + 1) k

theorem stateAfterCalls_zero (env : Nat → StateEnv) (s : SessionState)
    (ids : List String) (i : Nat) : stateAfterCalls env s ids i 0 = s := by
  cases ids <;> rfl

theorem stateAfterCalls_succ_cons (env : Nat → StateEnv) (s : SessionState)
    (id : String) (rest : List String) (i k : Nat) :
    stateAfterCalls env s (id :: rest) i (k + 1) =
      stateAfterCalls env (external_request_charger_state id s (env i)).2.1
        rest (i + 1) k := rfl

/-- The per-charger loop is fail-fast: if the `k`-th call errs with `e` while
every earlier call succeeded, the loop returns `Err e`, every charger state
fetched is among the first `k + 1` ids, and at most `k + 1` state fetches
happened. -/
theorem chargerLoop_fail_fast (env : Nat → StateEnv) :
    ∀ (ids : List String) (s : SessionState) (i k : Nat) (e : EaseeError),
    (∀ j, j < k → ∃ st, (external_request_charger_state (ids.getD j "")
        (stateAfterCalls env s ids i j) (env (i + j))).1 = .ok st) →
    (external_request_charger_state (ids.getD k "")
        (stateAfterCalls env s ids i k) (env (i + k))).1 = .err e →
    k < ids.length →
    (chargerLoop env s ids i).1 = .err e ∧
    (∀ id, id ∈ stateGetIds (chargerLoop env s ids i).2.2 → id ∈ ids.take (k + 1)) ∧
    (stateGetIds (chargerLoop env s ids i).2.2).length ≤ k + 1 := by
  intro ids
  induction ids with
  | nil =>
    intro s i k e hok herr hk
    exact absurd hk (by simp)
  | cons id rest ih =>
    intro s i k e hok herr hk
    rcases hx : external_request_charger_state id s (env i) with ⟨r1, s1, tr1⟩
    have htr1 := stateGetIds_ercs id s (env i)
    rw [hx] at htr1
    rcases k with _ | k
    · have herr0 : r1 = .err e := by
        have h2 : (external_request_charger_state id s (env i)).1 = .err e := herr
        rw [hx] at h2
        exact h2
      subst herr0
      have hres : chargerLoop env s (id :: rest) i = (.err e, s1, tr1) := by
        unfold chargerLoop
        rw [hx]
      rw [hres]
      rcases htr1 with htr1 | htr1 <;> simp [htr1]
    · obtain ⟨st0, h0⟩ := hok 0 (Nat.succ_pos k)
      have h0' : r1 = .ok st0 := by
        have h2 : (external_request_charger_state id s (env i)).1 = .ok st0 := h0
        rw [hx] at h2
        exact h2
      subst h0'
      have hok2 : ∀ j, j < k → ∃ st, (external_request_charger_state (rest.getD j "")
          (stateAfterCalls env s1 rest (i + 1) j) (env ((i + 1) + j))).1 = .ok st := by
        intro j hj
        obtain ⟨st, hst⟩ := hok (j + 1) (Nat.succ_lt_succ hj)
        refine ⟨st, ?_⟩
        have hs : stateAfterCalls env s (id :: rest) i (j + 1) =
            stateAfterCalls env s1 rest (i + 1) j := by
          rw [stateAfterCalls_succ_cons, hx]
        have hidx : i + (j + 1) = (i + 1) + j := by omega
        rw [← hs, ← hidx]
        exact hst
      have herr2 : (external_request_charger_state (rest.getD k "")
          (stateAfterCalls env s1 rest (i + 1) k) (env ((i + 1) + k))).1 = .err e := by
        have hs : stateAfterCalls env s (id :: rest) i (k + 1) =
            stateAfterCalls env s1 rest (i + 1) k := by
          rw [stateAfterCalls_succ_cons, hx]
        have hidx : i + (k + 1) = (i + 1) + k := by omega
        rw [← hs, ← hidx]
        exact herr
      have hk2 : k < rest.length := by
        simpa using Nat.lt_of_succ_lt_succ hk
      obtain ⟨ih1, ih2, ih3⟩ := ih s1 (i + 1) k e hok2 herr2 hk2
      rcases hy : chargerLoop env s1 rest (i + 1) with ⟨r2, s2, tr2⟩
      rw [hy] at ih1 ih2 ih3
      have ih2a : ∀ x, x ∈ stateGetIds tr2 → x ∈ rest.take (k + 1) :=
        fun x hx3 => ih2 x hx3
      have ih3a : (stateGetIds tr2).length ≤ k + 1 := ih3
      have hr2 : r2 = .err e := ih1
      subst hr2
      have hres : chargerLoop env s (id :: rest) i = (.err e, s2, tr1 ++ tr2) := by
        unfold chargerLoop
        rw [hx]
        dsimp only
        rw [hy]
      rw [hres]
      refine ⟨rfl, ?_, ?_⟩
      · intro x hmem
        rw [stateGetIds_append] at hmem
        rcases List.mem_append.mp hmem with hmem | hmem
        · rcases htr1 with htr1 | htr1 <;> rw [htr1] at hmem
          · exact absurd hmem (List.not_mem_nil x)
          · have hx2 : x = id := List.mem_singleton.mp hmem
            subst hx2
            exact List.mem_cons_self ..
        · exact List.mem_cons_of_mem id (ih2a x hmem)
      · rw [stateGetIds_append, List.length_append]
        rcases htr1 with htr1 | htr1 <;> rw [htr1] <;> simp <;> omega

/-- `get_charger_list` performs no per-charger state call. -/
theorem stateGetIds_gcl (s : SessionState) (env : ListEnv) :
    stateGetIds (get_charger_list s env).2.2 = [] := by
  rcases h : refresh_auth s env.auth with ⟨r, s1, tr⟩
  have htr : stateGetIds tr = [] := by
    have h2 := stateGetIds_refresh_auth s env.auth
    rw [h] at h2
    exact h2
  have hcases : (get_charger_list s env).2.2 = tr ∨
      (get_charger_list s env).2.2 = tr ++ [.listGet] := by
    unfold get_charger_list
    rw [h]
    rcases r with _ | e | p
    · dsimp only
      rcases htk : s1.token with _ | tk
      · left; rfl
      · rcases env.wire with _ | ⟨st, b⟩
        · right; rfl
        · rcases st <;> rcases b with _ | (_ | _ | ⟨items⟩) <;>
            try (right; rfl)
          all_goals dsimp only
          all_goals rcases hei : extractIds items with _ | ids2 <;> right <;> rfl
    · left; rfl
    · left; rfl
  rcases hcases with hc | hc
  · rw [hc]
    exact htr
  · rw [hc, stateGetIds_append, htr]
    rfl

/-- C5: the pipeline (`get_charger_state`, the spec's `fetch_all`) is
fail-fast: when the listing succeeded with `ids` and the `k`-th per-charger
fetch fails with `e` while all earlier ones succeeded, the whole call returns
`Err e`, every charger fetched is among the first `k + 1` ids (no later id is
fetched), and at most `k + 1` per-charger fetches were made — no partial list
is returned (the error carries none). -/
theorem get_charger_state_fail_fast
    (env : PipelineEnv) (s s1 : SessionState) (ids : List String)
    (tr1 : List NetCall) (k : Nat) (e : EaseeError)
    (hlist : get_charger_list s env.listEnv = (.ok ids, s1, tr1))
    (hok : ∀ j, j < k → ∃ st, (external_request_charger_state (ids.getD j "")
        (stateAfterCalls env.stateEnvs s1 ids 0 j) (env.stateEnvs j)).1 = .ok st)
    (herr : (external_request_charger_state (ids.getD k "")
        (stateAfterCalls env.stateEnvs s1 ids 0 k) (env.stateEnvs k)).1 = .err e)
    (hk : k < ids.length) :
    (get_charger_state s env).1 = .err e ∧
    (∀ id, id ∈ stateGetIds (get_charger_state s env).2.2 → id ∈ ids.take (k + 1)) ∧
    (stateGetIds (get_charger_state s env).2.2).length ≤ k + 1 := by
  have hok2 : ∀ j, j < k → ∃ st, (external_request_charger_state (ids.getD j "")
      (stateAfterCalls env.stateEnvs s1 ids 0 j) (env.stateEnvs (0 + j))).1 = .ok st := by
    intro j hj
    rw [Nat.zero_add]
    exact hok j hj
  have herr2 : (external_request_charger_state (ids.getD k "")
      (stateAfterCalls env.stateEnvs s1 ids 0 k) (env.stateEnvs (0 + k))).1 = .err e := by
    rw [Nat.zero_add]
    exact herr
  obtain ⟨l1, l2, l3⟩ := chargerLoop_fail_fast env.stateEnvs ids s1 0 k e hok2 herr2 hk
  rcases hz : chargerLoop env.stateEnvs s1 ids 0 with ⟨r2, s2, tr2⟩
  rw [hz] at l1 l2 l3
  have hres : get_charger_state s env = (r2, s2, tr1 ++ tr2) := by
    unfold get_charger_state
    rw [hlist]
    dsimp only
    rw [hz]
  rw [hres]
  have htr1 : stateGetIds tr1 = [] := by
    have h2 := stateGetIds_gcl s env.listEnv
    rw [hlist] at h2
    exact h2
  refine ⟨l1, ?_, ?_⟩
  · intro x hmem
    dsimp only at hmem
    rw [stateGetIds_append, htr1] at hmem
    exact l2 x (by simpa using hmem)
  · dsimp only
    rw [stateGetIds_append, htr1]
    simpa using l3

/-- Fixture: a per-charger exchange that succeeds with values (1, 2, 3). -/
def okStateEnv : StateEnv :=
  { auth := idleAuthEnv
    wire := .response .success (some (.fields (some 1) (some 2) (some 3))) }

/-- Fixture: a per-charger exchange answered with HTTP 429. -/
def rateLimitedStateEnv : StateEnv :=
  { auth := idleAuthEnv, wire := .response .tooManyRequests none }

/-- Fixture: a pipeline run listing three chargers whose second per-charger
fetch is rate-limited (the spec's own fail-fast example). -/
def pipeEnvC5 : PipelineEnv :=
  { listEnv :=
      { auth := idleAuthEnv
        wire := .response .success (some (.array [some "a", some "b", some "c"])) }
    stateEnvs := fun j => if j = 0 then okStateEnv else rateLimitedStateEnv }

/-- C5 witness: three chargers, the second fetch fails with 429: the pipeline
returns `Err RateLimit`, fetches only chargers among the first two ids, and
makes at most two per-charger fetches. -/
theorem get_charger_state_fail_fast_witness :
    (get_charger_state validSession pipeEnvC5).1 = .err .RateLimit ∧
    (∀ id, id ∈ stateGetIds (get_charger_state validSession pipeEnvC5).2.2 →
      id ∈ (["a", "b", "c"] : List String).take 2) ∧
    (stateGetIds (get_charger_state validSession pipeEnvC5).2.2).length ≤ 2 := by
  refine get_charger_state_fail_fast pipeEnvC5 validSession validSession
    ["a", "b", "c"] [.listGet] 1 .RateLimit (by decide) ?_ (by decide) (by decide)
  intro j hj
  have hj0 : j = 0 := by omega
  subst hj0
  exact ⟨{ id := "a", power := 1, session := 2, energy_per_hour := 3 }, by decide⟩

/-! ## C6-C9: the TTL cache of field_index -/

/-- On the expired-entry fetch path with a failing pipeline call, the handler
answers with the mapped error status and leaves both cache fields untouched. -/
theorem field_index_expired_err (c : Cache) (s : SessionState) (f : RouteField)
    (index : Nat) (env : RouteEnv) (t0 : Int) (e : EaseeError)
    (s1 : SessionState) (tr : List NetCall)
    (hc : c.last_update = some t0)
    (hmin : minTimestamp ≤ t0 + 60) (hmax : t0 + 60 ≤ maxTimestamp)
    (hnow : env.now > t0 + 60)
    (hp : get_charger_state s env.pipeline = (.err e, s1, tr)) :
    field_index c s f index env = (.respond (errorStatus e) .empty, c, s1, 1) := by
  have hca : checkedAddSigned t0 60 = some (t0 + 60) := by
    unfold checkedAddSigned
    rw [if_pos ⟨hmin, hmax⟩]
  unfold field_index
  rw [hc]
  dsimp only
  rw [hca]
  dsimp only
  rw [if_pos hnow, hp]

/-- On the expired-entry fetch path with a succeeding pipeline call, the
handler stores the fresh value in `cache.state` and then hangs re-acquiring
the `cache.last_update` lock it already holds; `last_update` keeps its old
value. -/
theorem field_index_expired_ok (c : Cache) (s : SessionState) (f : RouteField)
    (index : Nat) (env : RouteEnv) (t0 : Int) (chargers : List ChargerState)
    (s1 : SessionState) (tr : List NetCall)
    (hc : c.last_update = some t0)
    (hmin : minTimestamp ≤ t0 + 60) (hmax : t0 + 60 ≤ maxTimestamp)
    (hnow : env.now > t0 + 60)
    (hp : get_charger_state s env.pipeline = (.ok chargers, s1, tr)) :
    field_index c s f index env = (.hang, { c with state := some chargers }, s1, 1) := by
  have hca : checkedAddSigned t0 60 = some (t0 + 60) := by
    unfold checkedAddSigned
    rw [if_pos ⟨hmin, hmax⟩]
  unfold field_index
  rw [hc]
  dsimp only
  rw [hca]
  dsimp only
  rw [if_pos hnow, hp]

/-- Within the TTL window the handler serves from `cache.state` and performs
no fetch. -/
theorem field_index_cached (c : Cache) (s : SessionState) (f : RouteField)
    (index : Nat) (env : RouteEnv) (t0 : Int) (chargers : List ChargerState)
    (hc : c.last_update = some t0) (hst : c.state = some chargers)
    (hmin : minTimestamp ≤ t0 + 60) (hmax : t0 + 60 ≤ maxTimestamp)
    (hnow : ¬ env.now > t0 + 60) :
    field_index c s f index env =
      (match chargers.get? index with
       | some charger => (.respond 200 (.num (fieldValue f charger)), c, s, 0)
       | none => (.respond 400 .indexOutOfRange, c, s, 0)) := by
  have hca : checkedAddSigned t0 60 = some (t0 + 60) := by
    unfold checkedAddSigned
    rw [if_pos ⟨hmin, hmax⟩]
  unfold field_index
  rw [hc]
  dsimp only
  rw [hca]
  dsimp only
  rw [if_neg hnow, hst]

/-- C6: the TTL window of the cache, with the ttl fixed at 60 seconds
(`Duration::minutes(1)`): a query at any `now` with `now - t0 < 60` answers
the cached value of the requested field with zero pipeline fetches and
leaves cache and session untouched, and a query at `now = t0 + 61` performs
exactly one pipeline fetch. -/
theorem cache_ttl_window :
    (∀ (c : Cache) (s : SessionState) (f : RouteField) (index : Nat)
        (env : RouteEnv) (t0 : Int) (chargers : List ChargerState)
        (charger : ChargerState),
      c.last_update = some t0 → c.state = some chargers →
      minTimestamp ≤ t0 + 60 → t0 + 60 ≤ maxTimestamp →
      env.now - t0 < 60 →
      chargers.get? index = some charger →
      field_index c s f index env =
        (.respond 200 (.num (fieldValue f charger)), c, s, 0)) ∧
    (∀ (c : Cache) (s : SessionState) (f : RouteField) (index : Nat)
        (p : PipelineEnv) (t0 : Int) (chargers : List ChargerState),
      c.last_update = some t0 → c.state = some chargers →
      minTimestamp ≤ t0 + 60 → t0 + 60 ≤ maxTimestamp →
      (field_index c s f index { now := t0 + 61, pipeline := p }).2.2.2 = 1) := by
  constructor
  · intro c s f index env t0 chargers charger hc hst hmin hmax hnow hidx
    have hnow2 : ¬ env.now > t0 + 60 := by omega
    rw [field_index_cached c s f index env t0 chargers hc hst hmin hmax hnow2, hidx]
  · intro c s f index p t0 chargers hc hst hmin hmax
    have hnow : (t0 + 61 : Int) > t0 + 60 := by omega
    rcases hp : get_charger_state s p with ⟨r, s1, tr⟩
    rcases r with a | e | src
    · rw [field_index_expired_ok c s f index { now := t0 + 61, pipeline := p } t0
        a s1 tr hc hmin hmax hnow hp]
    · rw [field_index_expired_err c s f index { now := t0 + 61, pipeline := p } t0
        e s1 tr hc hmin hmax hnow hp]
    · have hca : checkedAddSigned t0 60 = some (t0 + 60) := by
        unfold checkedAddSigned
        rw [if_pos ⟨hmin, hmax⟩]
      unfold field_index
      rw [hc]
      dsimp only
      rw [hca]
      dsimp only
      rw [if_pos hnow, hp]

/-- Fixture: the charger state the fixtures fetch ("a", 1, 2, 3). -/
def chargerA : ChargerState := { id := "a", power := 1, session := 2, energy_per_hour := 3 }

/-- Fixture: a cache entry fetched at time 0 holding one charger. -/
def cachedCache : Cache := { last_update := some 0, state := some [chargerA] }

/-- Fixture: a stale cache entry fetched at time 0 holding an empty list. -/
def staleEmptyCache : Cache := { last_update := some 0, state := some [] }

/-- Fixture: the empty cache of process start. -/
def emptyCache : Cache := { last_update := none, state := none }

/-- Fixture: a pipeline whose listing call fails in transport. -/
def pipeErrEnv : PipelineEnv :=
  { listEnv := { auth := idleAuthEnv, wire := .noResponse }
    stateEnvs := fun _ => rateLimitedStateEnv }

/-- Fixture: a pipeline that lists one charger and fetches it successfully. -/
def pipeOkEnv : PipelineEnv :=
  { listEnv := { auth := idleAuthEnv, wire := .response .success (some (.array [some "a"])) }
    stateEnvs := fun _ => okStateEnv }

/-- C6 witness: both parts of `cache_ttl_window` at concrete inputs — a query
at `t0 + 30` is answered from the cache with zero fetches, and a query at
`t0 + 61` makes exactly one fetch. -/
theorem cache_ttl_window_witness :
    field_index cachedCache validSession .Power 0 { now := 30, pipeline := pipeOkEnv } =
      (.respond 200 (.num (fieldValue .Power chargerA)), cachedCache, validSession, 0) ∧
    (field_index cachedCache validSession .Power 0
        { now := (0 : Int) + 61, pipeline := pipeOkEnv }).2.2.2 = 1 :=
  ⟨cache_ttl_window.1 cachedCache validSession .Power 0
      { now := 30, pipeline := pipeOkEnv } 0 [chargerA] chargerA rfl rfl
      (by decide) (by decide) (by decide) rfl,
   cache_ttl_window.2 cachedCache validSession .Power 0 pipeOkEnv 0 [chargerA]
      rfl rfl (by decide) (by decide)⟩

/-- C7: a cache miss whose pipeline fetch fails returns the mapped error to
the caller and leaves the previously cached entry — both `state` and
`last_update` — exactly as it was (no eviction); the same holds when no entry
exists yet (the cache simply stays empty). -/
theorem fetch_error_preserves_cache :
    (∀ (c : Cache) (s : SessionState) (f : RouteField) (index : Nat)
        (env : RouteEnv) (t0 : Int) (e : EaseeError) (s1 : SessionState)
        (tr : List NetCall),
      c.last_update = some t0 →
      minTimestamp ≤ t0 + 60 → t0 + 60 ≤ maxTimestamp →
      env.now > t0 + 60 →
      get_charger_state s env.pipeline = (.err e, s1, tr) →
      field_index c s f index env = (.respond (errorStatus e) .empty, c, s1, 1)) ∧
    (∀ (c : Cache) (s : SessionState) (f : RouteField) (index : Nat)
        (env : RouteEnv) (e : EaseeError) (s1 : SessionState) (tr : List NetCall),
      c.last_update = none →
      get_charger_state s env.pipeline = (.err e, s1, tr) →
      field_index c s f index env = (.respond (errorStatus e) .empty, c, s1, 1)) := by
  constructor
  · intro c s f index env t0 e s1 tr hc hmin hmax hnow hp
    exact field_index_expired_err c s f index env t0 e s1 tr hc hmin hmax hnow hp
  · intro c s f index env e s1 tr hc hp
    unfold field_index
    rw [hc]
    dsimp only
    rw [hp]

/-- C7 witness: both parts of `fetch_error_preserves_cache` at concrete
inputs — a failed refresh fetch over `cachedCache` keeps the stale entry and
answers 500; a failed first fetch over the empty cache answers 500 and the
cache stays empty. -/
theorem fetch_error_preserves_cache_witness :
    field_index cachedCache validSession .Power 0 { now := 100, pipeline := pipeErrEnv } =
      (.respond (errorStatus .HttpFailed) .empty, cachedCache, validSession, 1) ∧
    field_index emptyCache validSession .Power 0 { now := 100, pipeline := pipeErrEnv } =
      (.respond (errorStatus .HttpFailed) .empty, emptyCache, validSession, 1) :=
  ⟨fetch_error_preserves_cache.1 cachedCache validSession .Power 0
      { now := 100, pipeline := pipeErrEnv } 0 .HttpFailed validSession [.listGet]
      rfl (by decide) (by decide) (by decide) (by decide),
   fetch_error_preserves_cache.2 emptyCache validSession .Power 0
      { now := 100, pipeline := pipeErrEnv } .HttpFailed validSession [.listGet]
      rfl (by decide)⟩

/-- C8 counterexample: index 5 with the last successful fetch holding one
charger (and the stale cached value empty), on the expired-entry fetch path:
the call does NOT answer a 400-class response — it stores the fresh value and
then hangs on the second `cache.last_update` lock — and the cache IS modified
by the call (`state` replaced, `last_update` left behind). -/
theorem index_oob_fetch_path_cex :
    (field_index staleEmptyCache validSession .Power 5
        { now := 100, pipeline := pipeOkEnv }).1 = .hang ∧
    (field_index staleEmptyCache validSession .Power 5
        { now := 100, pipeline := pipeOkEnv }).2.1 ≠ staleEmptyCache ∧
    (field_index staleEmptyCache validSession .Power 5
        { now := 100, pipeline := pipeOkEnv }).2.1.state = some [chargerA] := by
  decide

/-- C8 (amended): when the query is served from cache (entry present, within
the TTL window), an index at or past the length of the cached value answers
400 `Index out of range` and leaves the cache (value and timestamp) and the
session unmodified.  When the call takes the fetch path and the fetch
succeeds, the handler replaces `cache.state` with the fresh value before any
index check and then hangs re-acquiring the timestamp lock, producing no
response. -/
theorem index_oob_cached_branch :
    (∀ (c : Cache) (s : SessionState) (f : RouteField) (index : Nat)
        (env : RouteEnv) (t0 : Int) (chargers : List ChargerState),
      c.last_update = some t0 → c.state = some chargers →
      minTimestamp ≤ t0 + 60 → t0 + 60 ≤ maxTimestamp →
      ¬ env.now > t0 + 60 →
      chargers.length ≤ index →
      field_index c s f index env = (.respond 400 .indexOutOfRange, c, s, 0)) ∧
    (∀ (c : Cache) (s : SessionState) (f : RouteField) (index : Nat)
        (env : RouteEnv) (t0 : Int) (chargers : List ChargerState)
        (s1 : SessionState) (tr : List NetCall),
      c.last_update = some t0 →
      minTimestamp ≤ t0 + 60 → t0 + 60 ≤ maxTimestamp →
      env.now > t0 + 60 →
      get_charger_state s env.pipeline = (.ok chargers, s1, tr) →
      field_index c s f index env = (.hang, { c with state := some chargers }, s1, 1)) := by
  constructor
  · intro c s f index env t0 chargers hc hst hmin hmax hnow hlen
    rw [field_index_cached c s f index env t0 chargers hc hst hmin hmax hnow,
      List.get?_len_le hlen]
  · intro c s f index env t0 chargers s1 tr hc hmin hmax hnow hp
    exact field_index_expired_ok c s f index env t0 chargers s1 tr hc hmin hmax hnow hp

/-- C8 witness: both parts of `index_oob_cached_branch` at concrete inputs —
index 3 over a one-element cached value answers 400 with the cache untouched;
the successful fetch path replaces the cache value and hangs. -/
theorem index_oob_cached_branch_witness :
    field_index cachedCache validSession .Power 3 { now := 30, pipeline := pipeOkEnv } =
      (.respond 400 .indexOutOfRange, cachedCache, validSession, 0) ∧
    field_index staleEmptyCache validSession .Power 5 { now := 100, pipeline := pipeOkEnv } =
      (.hang, { staleEmptyCache with state := some [chargerA] }, validSession, 1) :=
  ⟨index_oob_cached_branch.1 cachedCache validSession .Power 3
      { now := 30, pipeline := pipeOkEnv } 0 [chargerA] rfl rfl
      (by decide) (by decide) (by decide) (by decide),
   index_oob_cached_branch.2 staleEmptyCache validSession .Power 5
      { now := 100, pipeline := pipeOkEnv } 0 [chargerA] validSession
      [.listGet, .stateGet "a"] rfl (by decide) (by decide) (by decide) (by decide)⟩

/-- Fixture: a caller at time 100 (entry of time 0 is expired) whose
pipeline fetch fails. -/
def envFailC9 : RouteEnv := { now := 100, pipeline := pipeErrEnv }

/-- Fixture: a caller at time 100 whose pipeline fetch succeeds. -/
def envOkC9 : RouteEnv := { now := 100, pipeline := pipeOkEnv }

/-- C9 counterexample: two concurrent callers both observing the same expired
entry (the handler holds the `cache.last_update` guard throughout, so the
callers serialize; the first caller's fetch fails, leaving the entry expired
for the second).  Two upstream pipeline fetches are issued — not one — and
the callers receive different outcomes: a 500 response and a hang (the
second caller's successful fetch path never responds). -/
theorem concurrent_miss_two_fetches_cex :
    (runCallers .Power 0 staleEmptyCache validSession [envFailC9, envOkC9]).2.2.2 = 2 ∧
    (runCallers .Power 0 staleEmptyCache validSession [envFailC9, envOkC9]).1 =
      [.respond 500 .empty, .hang] := by
  decide

/-- C9 (amended): callers racing a miss are serialized by the guard the
handler holds on `cache.last_update` for its whole body; there is no
single-flight.  Each serialized caller re-checks the TTL, so after a caller
whose fetch failed (cache left expired), the next caller issues its own
fetch: two callers over the same expired entry whose fetches both fail
produce two upstream fetches and each receives its own error response. -/
theorem serialized_miss_refetches (c : Cache) (s : SessionState)
    (f : RouteField) (index : Nat) (t0 : Int) (env1 env2 : RouteEnv)
    (e1 e2 : EaseeError) (s1 s2 : SessionState) (tr1 tr2 : List NetCall)
    (hc : c.last_update = some t0)
    (hmin : minTimestamp ≤ t0 + 60) (hmax : t0 + 60 ≤ maxTimestamp)
    (h1now : env1.now > t0 + 60) (h2now : env2.now > t0 + 60)
    (h1 : get_charger_state s env1.pipeline = (.err e1, s1, tr1))
    (h2 : get_charger_state s1 env2.pipeline = (.err e2, s2, tr2)) :
    runCallers f index c s [env1, env2] =
      ([.respond (errorStatus e1) .empty, .respond (errorStatus e2) .empty], c, s2, 2) := by
  have hf1 := field_index_expired_err c s f index env1 t0 e1 s1 tr1 hc hmin hmax h1now h1
  have hf2 := field_index_expired_err c s1 f index env2 t0 e2 s2 tr2 hc hmin hmax h2now h2
  unfold runCallers
  rw [hf1]
  dsimp only
  unfold runCallers
  rw [hf2]
  rfl

/-- C9 witness: `serialized_miss_refetches` at concrete inputs — two callers
over the stale entry, both fetches failing in transport: two fetches total
and two 500 responses. -/
theorem serialized_miss_refetches_witness :
    runCallers .Power 0 staleEmptyCache validSession [envFailC9, envFailC9] =
      ([.respond (errorStatus .HttpFailed) .empty, .respond (errorStatus .HttpFailed) .empty],
        staleEmptyCache, validSession, 2) :=
  serialized_miss_refetches staleEmptyCache validSession .Power 0 0
    envFailC9 envFailC9 .HttpFailed .HttpFailed validSession validSession
    [.listGet] [.listGet] rfl (by decide) (by decide) (by decide) (by decide)
    (by decide) (by decide)

/-! ## C10: the token, once set, is never cleared; the unreachable arms -/

/-- When `storeAuthResponse` returns `Ok`, the stored token is present. -/
theorem storeAuthResponse_ok_token (s : SessionState) (b : Option AuthBody)
    (now : Int) (call : NetCall)
    (h : (storeAuthResponse s b now call).1 = .ok ()) :
    ((storeAuthResponse s b now call).2.1).token.isSome = true := by
  unfold storeAuthResponse at h ⊢
  rcases b with _ | b
  · simp at h
  rcases b with _ | ⟨a, r, e2⟩
  · simp at h
  rcases a with _ | tok <;> rcases r with _ | rtok <;> rcases e2 with _ | dur <;>
    try simp at h
  dsimp only at h ⊢
  by_cases hdur : dur < -maxDurationSeconds ∨ maxDurationSeconds < dur
  · rw [if_pos hdur] at h
    simp at h
  · rw [if_neg hdur] at h ⊢
    rcases hca : checkedAddSigned now dur with _ | expiry
    · rw [hca] at h
      simp at h
    · rfl

/-- `storeAuthResponse` never clears a present token. -/
theorem storeAuthResponse_token_mono (s : SessionState) (b : Option AuthBody)
    (now : Int) (call : NetCall) (h : s.token.isSome = true) :
    ((storeAuthResponse s b now call).2.1).token.isSome = true := by
  unfold storeAuthResponse
  rcases b with _ | b
  · exact h
  rcases b with _ | ⟨a, r, e2⟩
  · exact h
  rcases a with _ | tok <;> rcases r with _ | rtok <;> rcases e2 with _ | dur <;>
    try exact h
  split <;> try exact h
  all_goals split <;> (first | exact h | rfl | (split <;> (first | rfl | (split <;> rfl))))

/-- `storeAuthResponse` never raises the no-token panic. -/
theorem storeAuthResponse_not_unreachable (s : SessionState) (b : Option AuthBody)
    (now : Int) (call : NetCall) :
    (storeAuthResponse s b now call).1 ≠ .panic .noTokenUnreachable := by
  unfold storeAuthResponse
  rcases b with _ | b
  · simp
  rcases b with _ | ⟨a, r, e2⟩
  · simp
  rcases a with _ | tok <;> rcases r with _ | rtok <;> rcases e2 with _ | dur <;>
    try simp
  split <;> try simp
  all_goals split <;> simp

/-- `login` either fails leaving the session untouched or stores the
response. -/
theorem login_cases (s : SessionState) (env : LoginEnv) :
    (∃ e, login s env = (.err e, s, (login s env).2.2)) ∨
    ∃ b, env.wire = .response .success b ∧
      login s env = storeAuthResponse s b env.now .loginPost := by
  unfold login
  rcases hcr : env.credsOk
  · left
    exact ⟨.LoginFailed, rfl⟩
  · rcases hw : env.wire with _ | ⟨st, b⟩
    · left
      exact ⟨.HttpFailed, rfl⟩
    · rcases st
      · right
        exact ⟨b, rfl, rfl⟩
      · left
        exact ⟨.LoginFailed, rfl⟩
      · left
        exact ⟨.LoginFailed, rfl⟩

/-- A successful `login` leaves a token in the session. -/
theorem login_ok_token (s : SessionState) (env : LoginEnv)
    (h : (login s env).1 = .ok ()) :
    ((login s env).2.1).token.isSome = true := by
  rcases login_cases s env with ⟨e, hl⟩ | ⟨b, hw, hl⟩
  · rw [hl] at h
    simp at h
  · rw [hl] at h ⊢
    exact storeAuthResponse_ok_token s b env.now .loginPost h

/-- `login` never clears a present token. -/
theorem login_token_mono (s : SessionState) (env : LoginEnv)
    (h : s.token.isSome = true) :
    ((login s env).2.1).token.isSome = true := by
  rcases login_cases s env with ⟨e, hl⟩ | ⟨b, hw, hl⟩
  · rw [hl]
    exact h
  · rw [hl]
    exact storeAuthResponse_token_mono s b env.now .loginPost h

/-- `login` never raises the no-token panic. -/
theorem login_not_unreachable (s : SessionState) (env : LoginEnv) :
    (login s env).1 ≠ .panic .noTokenUnreachable := by
  rcases login_cases s env with ⟨e, hl⟩ | ⟨b, hw, hl⟩
  · rw [hl]
    simp
  · rw [hl]
    exact storeAuthResponse_not_unreachable s b env.now .loginPost

/-- `refresh_token` either delegates to `login`, fails leaving the session
untouched, or stores the refresh response. -/
theorem refresh_token_cases (s : SessionState) (env : RefreshEnv) :
    refresh_token s env = login s env.loginEnv ∨
    (∃ e, refresh_token s env = (.err e, s, (refresh_token s env).2.2)) ∨
    ∃ b, refresh_token s env = storeAuthResponse s b env.now .refreshPost := by
  unfold refresh_token
  rcases hrt : s.refresh_token with _ | rt
  · left
    rfl
  · rcases htk : s.token with _ | tk
    · left
      rfl
    · rcases hw : env.wire with _ | ⟨st, b⟩
      · right
        left
        exact ⟨.HttpFailed, rfl⟩
      · rcases st
        · right
          right
          exact ⟨b, rfl⟩
        · right
          left
          exact ⟨.LoginFailed, rfl⟩
        · right
          left
          exact ⟨.LoginFailed, rfl⟩

/-- A successful `refresh_token` leaves a token in the session. -/
theorem refresh_token_ok_token (s : SessionState) (env : RefreshEnv)
    (h : (refresh_token s env).1 = .ok ()) :
    ((refresh_token s env).2.1).token.isSome = true := by
  rcases refresh_token_cases s env with hl | ⟨e, hl⟩ | ⟨b, hl⟩
  · rw [hl] at h ⊢
    exact login_ok_token s env.loginEnv h
  · rw [hl] at h
    simp at h
  · rw [hl] at h ⊢
    exact storeAuthResponse_ok_token s b env.now .refreshPost h

/-- `refresh_token` never clears a present token. -/
theorem refresh_token_token_mono (s : SessionState) (env : RefreshEnv)
    (h : s.token.isSome = true) :
    ((refresh_token s env).2.1).token.isSome = true := by
  rcases refresh_token_cases s env with hl | ⟨e, hl⟩ | ⟨b, hl⟩
  · rw [hl]
    exact login_token_mono s env.loginEnv h
  · rw [hl]
    exact h
  · rw [hl]
    exact storeAuthResponse_token_mono s b env.now .refreshPost h

/-- `refresh_token` never raises the no-token panic. -/
theorem refresh_token_not_unreachable (s : SessionState) (env : RefreshEnv) :
    (refresh_token s env).1 ≠ .panic .noTokenUnreachable := by
  rcases refresh_token_cases s env with hl | ⟨e, hl⟩ | ⟨b, hl⟩
  · rw [hl]
    exact login_not_unreachable s env.loginEnv
  · rw [hl]
    simp
  · rw [hl]
    exact storeAuthResponse_not_unreachable s b env.now .refreshPost

/-- A successful `refresh_auth` leaves a token in the session. -/
theorem refresh_auth_ok_token (s : SessionState) (env : AuthEnv)
    (h : (refresh_auth s env).1 = .ok ()) :
    ((refresh_auth s env).2.1).token.isSome = true := by
  unfold refresh_auth at h ⊢
  rcases htok : s.token with _ | tk <;> rcases hlt : s.lifetime with _ | lt <;>
    rw [htok, hlt] at h <;> dsimp only at h ⊢
  · exact login_ok_token s env.loginEnv h
  · exact login_ok_token s env.loginEnv h
  · exact login_ok_token s env.loginEnv h
  · by_cases hnow : lt > env.now
    · rw [if_pos hnow]
      rw [htok]
      rfl
    · rw [if_neg hnow] at h ⊢
      exact refresh_token_ok_token s env.refreshEnv h

/-- `refresh_auth` never clears a present token. -/
theorem refresh_auth_token_mono (s : SessionState) (env : AuthEnv)
    (h : s.token.isSome = true) :
    ((refresh_auth s env).2.1).token.isSome = true := by
  unfold refresh_auth
  rcases htok : s.token with _ | tk <;> rcases hlt : s.lifetime with _ | lt <;>
    dsimp only
  · exact login_token_mono s env.loginEnv h
  · exact login_token_mono s env.loginEnv h
  · exact login_token_mono s env.loginEnv h
  · by_cases hnow : lt > env.now
    · rw [if_pos hnow]
      exact h
    · rw [if_neg hnow]
      exact refresh_token_token_mono s env.refreshEnv h

/-- `refresh_auth` never raises the no-token panic. -/
theorem refresh_auth_not_unreachable (s : SessionState) (env : AuthEnv) :
    (refresh_auth s env).1 ≠ .panic .noTokenUnreachable := by
  unfold refresh_auth
  rcases htok : s.token with _ | tk <;> rcases hlt : s.lifetime with _ | lt <;>
    dsimp only
  · exact login_not_unreachable s env.loginEnv
  · exact login_not_unreachable s env.loginEnv
  · exact login_not_unreachable s env.loginEnv
  · by_cases hnow : lt > env.now
    · rw [if_pos hnow]
      simp
    · rw [if_neg hnow]
      exact refresh_token_not_unreachable s env.refreshEnv

/-- `get_charger_list` never reaches its `unreachable!()` arm. -/
theorem gcl_not_unreachable (s : SessionState) (env : ListEnv) :
    (get_charger_list s env).1 ≠ .panic .noTokenUnreachable := by
  rcases h : refresh_auth s env.auth with ⟨r, s1, tr⟩
  unfold get_charger_list
  rw [h]
  rcases r with u | e | p
  · dsimp only
    rcases htk : s1.token with _ | tk
    · exfalso
      have h2 := refresh_auth_ok_token s env.auth (by rw [h])
      rw [h] at h2
      dsimp only at h2
      rw [htk] at h2
      simp at h2
    · rcases env.wire with _ | ⟨st, b⟩
      · simp
      · rcases st <;> rcases b with _ | (_ | _ | ⟨items⟩) <;> try simp
        all_goals rcases hei : extractIds items with _ | ids2 <;> simp [hei]
  · simp
  · have h2 := refresh_auth_not_unreachable s env.auth
    rw [h] at h2
    simpa using h2

/-- `external_request_charger_state` never reaches its `unreachable!()`
arm. -/
theorem ercs_not_unreachable (id : String) (s : SessionState) (env : StateEnv) :
    (external_request_charger_state id s env).1 ≠ .panic .noTokenUnreachable := by
  rcases h : refresh_auth s env.auth with ⟨r, s1, tr⟩
  unfold external_request_charger_state
  rw [h]
  rcases r with u | e | p
  · dsimp only
    rcases htk : s1.token with _ | tk
    · exfalso
      have h2 := refresh_auth_ok_token s env.auth (by rw [h])
      rw [h] at h2
      dsimp only at h2
      rw [htk] at h2
      simp at h2
    · rcases env.wire with _ | ⟨st, b⟩
      · simp
      · rcases st <;> rcases b with _ | (_ | ⟨(_ | tp), (_ | se), (_ | eph)⟩) <;> simp
  · simp
  · have h2 := refresh_auth_not_unreachable s env.auth
    rw [h] at h2
    simpa using h2

/-- C10: whenever `refresh_auth` returns `Ok` the session holds a token; a
token once present is never cleared by `login`, `refresh_token` or
`refresh_auth` (no operation ever writes `None` into it); consequently the
`unreachable!()` no-token arms of `get_charger_list` and
`external_request_charger_state` are never executed. -/
theorem token_never_cleared :
    (∀ (s : SessionState) (env : AuthEnv), (refresh_auth s env).1 = .ok () →
      ((refresh_auth s env).2.1).token.isSome = true) ∧
    (∀ (s : SessionState) (env : LoginEnv), s.token.isSome = true →
      ((login s env).2.1).token.isSome = true) ∧
    (∀ (s : SessionState) (env : RefreshEnv), s.token.isSome = true →
      ((refresh_token s env).2.1).token.isSome = true) ∧
    (∀ (s : SessionState) (env : AuthEnv), s.token.isSome = true →
      ((refresh_auth s env).2.1).token.isSome = true) ∧
    (∀ (s : SessionState) (env : ListEnv),
      (get_charger_list s env).1 ≠ .panic .noTokenUnreachable) ∧
    (∀ (id : String) (s : SessionState) (env : StateEnv),
      (external_request_charger_state id s env).1 ≠ .panic .noTokenUnreachable) := by
  exact ⟨refresh_auth_ok_token, login_token_mono, refresh_token_token_mono,
    refresh_auth_token_mono, gcl_not_unreachable, ercs_not_unreachable⟩

/-- C10 witness: the hypothesis-bearing parts of `token_never_cleared` at
concrete inputs — after the no-op `refresh_auth` over `validSession` the
token is present, and the failed login over `overflowLoginEnv` preserves the
token of `validSession`. -/
theorem token_never_cleared_witness :
    ((refresh_auth validSession idleAuthEnv).2.1).token.isSome = true ∧
    ((login validSession overflowLoginEnv).2.1).token.isSome = true ∧
    ((refresh_token validSession idleAuthEnv.refreshEnv).2.1).token.isSome = true ∧
    ((refresh_auth expiredSession cexAuthEnv).2.1).token.isSome = true :=
  ⟨token_never_cleared.1 validSession idleAuthEnv (by decide),
   token_never_cleared.2.1 validSession overflowLoginEnv (by decide),
   token_never_cleared.2.2.1 validSession idleAuthEnv.refreshEnv (by decide),
   token_never_cleared.2.2.2.1 expiredSession cexAuthEnv (by decide)⟩
